import Mathlib

/-!
Shallow embedding of the authentication / lockout / ban-record subsystem of
`app.py` (hotel front-desk tool).  Python strings are embedded as `List Char`
(`Str`) so that every operation (strip, slice, comparison) is a structurally
recursive, kernel-computable Lean function.  The SQLite database is embedded
as a record of lists, one per table, in insertion order; SQL `SELECT ... WHERE
id = ?` with `fetchone` is `List.find?`, `INSERT` is list append, `UPDATE` is
`List.map`.  bcrypt verification is an abstract oracle `checkpw` passed as a
parameter.  Wall-clock time for the lockout logic is an abstract `Nat`
(minutes); calendar dates are ISO strings compared lexicographically, exactly
as SQLite compares TEXT columns.
-/

/-- Python `str` embedded as a list of characters. -/
abbrev Str := List Char

/-- Lexicographic (byte-order) string comparison, as SQLite compares TEXT.
`strLtB a b = true` iff `a < b`. -/
def strLtB : Str → Str → Bool
  | [], [] => false
  | [], _ :: _ => true
  | _ :: _, [] => false
  | a :: as, b :: bs =>
    if a.val < b.val then true
    else if b.val < a.val then false
    else strLtB as bs

/-- `strLeB a b = true` iff `a ≤ b` lexicographically (used for SQL `<=`). -/
def strLeB (a b : Str) : Bool := !(strLtB b a)

/-- Python `str.strip()`: drop leading and trailing whitespace. -/
def pyStrip (s : Str) : Str :=
  ((s.dropWhile Char.isWhitespace).reverse.dropWhile Char.isWhitespace).reverse

/-- Python slice `s[:n]`: first `n` characters. -/
def pyTake (s : Str) (n : Nat) : Str := s.take n

/-- Python `str.lower()` (ASCII, which is all SQLite LIKE folds anyway). -/
def pyLower (s : Str) : Str := s.map Char.toLower

/-- Helper for Python `str.split()`: accumulate the current word (reversed). -/
def pySplitAux : Str → Str → List Str
  | [], acc => if acc.isEmpty then [] else [acc.reverse]
  | c :: cs, acc =>
    if c.isWhitespace then
      if acc.isEmpty then pySplitAux cs [] else acc.reverse :: pySplitAux cs []
    else pySplitAux cs (c :: acc)

/-- Python `str.split()` with no argument: split on whitespace runs. -/
def pySplit (s : Str) : List Str := pySplitAux s []

/-- Substring test on character lists (model of SQLite `LIKE '%x%'` after
case folding). -/
def containsSub (s sub : Str) : Bool :=
  match s with
  | [] => sub.isEmpty
  | _ :: rest => sub.isPrefixOf s || containsSub rest sub

/-- Insertion of one element into an already-sorted list, placing it before
the first strictly-greater element (stability for equal keys). -/
def insertSorted {α : Type} (le : α → α → Bool) (a : α) : List α → List α
  | [] => [a]
  | b :: bs => if le a b then a :: b :: bs else b :: insertSorted le a bs

/-- Stable ascending sort: the semantics of Python `list.sort(key=...)` and
of SQLite `ORDER BY` with insertion order breaking ties. -/
def sortBy {α : Type} (le : α → α → Bool) : List α → List α
  | [] => []
  | a :: as => insertSorted le a (sortBy le as)

/-- Python `str.capitalize()` restricted to its effect on the ASCII-lowercase
inputs it receives here: upper-case the first character, lower-case the rest. -/
def pyCapitalize : Str → Str
  | [] => []
  | c :: cs => c.toUpper :: cs.map Char.toLower

/- ------------------------------------------------------------------ -/
/- Data model: one structure per SQLite table touched by the claims.  -/
/- ------------------------------------------------------------------ -/

/-- A row of the `users` table. -/
structure User where
  id : Nat
  username : Str
  password_hash : Str
  role : Str
  is_active : Bool
  force_password_change : Bool
  last_login : Option Nat
deriving DecidableEq, Repr

/-- A row of the `login_attempts` table (per-username lockout counter). -/
structure LoginAttempt where
  username : Str
  attempt_count : Nat
  locked_until : Option Nat
  last_attempt : Nat
deriving DecidableEq, Repr

/-- A row of the `records` table (one guest ban record).  `reasons` is stored
in SQLite as a JSON array of strings; the `json.dumps`/`json.loads` round
trip is the identity on such arrays, so it is embedded directly as a list. -/
structure BanRecord where
  id : Nat
  guest_name : Str
  status : Str
  ban_type : Str
  reasons : List Str
  reason_detail : Option Str
  date_added : Str
  incident_date : Option Str
  expiration_type : Option Str
  expiration_date : Option Str
  lifted_date : Option Str := none
  lifted_type : Option Str := none
  lifted_reason : Option Str := none
  lifted_initials : Option Str := none
deriving DecidableEq, Repr

/-- A row of the `timeline_entries` table, in insertion (rowid) order. -/
structure TimelineEntry where
  record_id : Nat
  entry_date : Str
  staff_initials : Option Str
  note : Str
  is_system : Bool
deriving DecidableEq, Repr

/-- A row of the `password_attempts` table (forensic log of failed lift
authorizations). -/
structure PasswordAttempt where
  record_id : Nat
  attempt_date : Str
  ip_address : Str
deriving DecidableEq, Repr

/-- A row of the `log_entries` table (front-desk log book), only the fields
`insert_log_entry` writes on the lift success path. -/
structure LogEntry where
  author_name : Str
  note : Str
  related_record_id : Option Nat
  is_system_event : Bool
deriving DecidableEq, Repr

/-- A row of the `photos` table (only read back by `get_record`). -/
structure Photo where
  id : Nat
  record_id : Nat
  filename : Str
  original_name : Str
  upload_date : Str
deriving DecidableEq, Repr

/-- The SQLite database: one list per table, in rowid (insertion) order. -/
structure DB where
  users : List User
  login_attempts : List LoginAttempt
  records : List BanRecord
  timeline_entries : List TimelineEntry
  password_attempts : List PasswordAttempt
  log_entries : List LogEntry
  photos : List Photo
deriving DecidableEq, Repr

/-- The Flask session cookie contents set by `login`. -/
structure Session where
  user_id : Option Nat
  username : Option Str
  role : Option Str
deriving DecidableEq, Repr

/-- `session.clear()`. -/
def Session.cleared : Session := ⟨none, none, none⟩

/- ------------------------------------------------------------------ -/
/- Lockout machinery (`app.py` lines 149-214).                        -/
/- ------------------------------------------------------------------ -/

/-- `MAX_LOGIN_ATTEMPTS = 5` in `app.py`. -/
def MAX_LOGIN_ATTEMPTS : Nat := 5

/-- `LOCKOUT_DURATION_MINUTES = 15` in `app.py`; time is modelled in whole
minutes. -/
def LOCKOUT_DURATION_MINUTES : Nat := 15

/-- `is_account_locked(username)`: reads `locked_until`; when the lock has
expired it also resets the row (count `0`, lock cleared), so it returns the
possibly-updated database alongside the verdict. -/
def is_account_locked (now : Nat) (db : DB) (username : Str) : Bool × DB :=
  match db.login_attempts.find? (fun a => a.username == username) with
  | none => (false, db)
  | some a =>
    match a.locked_until with
    | none => (false, db)
    | some t =>
      if now < t then (true, db)
      else
        (false,
          { db with
            login_attempts :=
              db.login_attempts.map (fun b =>
                if b.username == username then
                  { b with attempt_count := 0, locked_until := none }
                else b) })

/-- The SQL upsert `INSERT ... ON CONFLICT(username) DO UPDATE ...` used by
`record_failed_login`: every field but the key is overwritten. -/
def upsertLoginAttempt (attempts : List LoginAttempt) (row : LoginAttempt) :
    List LoginAttempt :=
  if attempts.any (fun a => a.username == row.username) then
    attempts.map (fun a => if a.username == row.username then row else a)
  else attempts ++ [row]

/-- `record_failed_login(username)`: bump the counter (starting at 1) and set
`locked_until = now + 15` once the count reaches `MAX_LOGIN_ATTEMPTS`. -/
def record_failed_login (now : Nat) (db : DB) (username : Str) : DB :=
  let newCount :=
    match db.login_attempts.find? (fun a => a.username == username) with
    | some a => a.attempt_count + 1
    | none => 1
  let lockedUntil :=
    if MAX_LOGIN_ATTEMPTS ≤ newCount then some (now + LOCKOUT_DURATION_MINUTES)
    else none
  { db with
    login_attempts :=
      upsertLoginAttempt db.login_attempts ⟨username, newCount, lockedUntil, now⟩ }

/-- `reset_login_attempts(username)`: zero the counter and clear the lock
(an `UPDATE`, so a no-op when no row exists). -/
def reset_login_attempts (db : DB) (username : Str) : DB :=
  { db with
    login_attempts :=
      db.login_attempts.map (fun a =>
        if a.username == username then
          { a with attempt_count := 0, locked_until := none }
        else a) }

/- ------------------------------------------------------------------ -/
/- Credential verification (`app.py` lines 217-269, 431-446).         -/
/- ------------------------------------------------------------------ -/

/-- `verify_user_credentials(username, password)`: find the user; if present
and active, check the real hash; otherwise perform a dummy bcrypt check (pure,
so invisible here) and fail.  `checkpw` is the bcrypt oracle. -/
def verify_user_credentials (checkpw : Str → Str → Bool) (db : DB)
    (username password : Str) : Option User :=
  match db.users.find? (fun u => u.username == username) with
  | some u =>
    if u.is_active then
      if checkpw password u.password_hash then some u else none
    else none
  | none => none

/-- `verify_manager_password(password)`: true iff the secret matches the hash
of ANY currently active account with role `manager`. -/
def verify_manager_password (checkpw : Str → Str → Bool) (users : List User)
    (password : Str) : Bool :=
  ((users.filter (fun u => u.role == "manager".data && u.is_active)).map
      (fun u => u.password_hash)).any
    (fun h => checkpw password h)

/- ------------------------------------------------------------------ -/
/- Login route (`app.py` lines 899-947).                              -/
/- ------------------------------------------------------------------ -/

/-- Observable outcome of `POST /login`. -/
inductive LoginResult where
  | redirectOverview
  | redirectChangePassword
  | redirectNext
  | errorPage (msg : Str)
deriving DecidableEq, Repr

/-- `login` (POST branch): lockout check, credential check, session
regeneration, lockout reset and `last_login` update on success, counter bump
and generic message on failure. -/
def login (checkpw : Str → Str → Bool) (now : Nat) (db : DB) (s : Session)
    (username password : Str) : LoginResult × DB × Session :=
  if s.user_id.isSome then (.redirectOverview, db, s)
  else
    match is_account_locked now db username with
    | (true, db₁) =>
      (.errorPage "Account is temporarily locked. Please try again later.".data,
        db₁, s)
    | (false, db₁) =>
      match verify_user_credentials checkpw db₁ username password with
      | some u =>
        let db₂ := reset_login_attempts db₁ username
        let s' : Session := ⟨some u.id, some u.username, some u.role⟩
        let db₃ :=
          { db₂ with
            users := db₂.users.map (fun v =>
              if v.id == u.id then { v with last_login := some now } else v) }
        if u.force_password_change then (.redirectChangePassword, db₃, s')
        else (.redirectNext, db₃, s')
      | none =>
        let db₂ := record_failed_login now db₁ username
        (.errorPage "Invalid username or password".data, db₂, s)

/-- Iterated `POST /login` attempts (same anonymous session, same submitted
credentials, one wall-clock instant per element): the database evolves
through the route, the returned page is discarded. -/
def loginChain (checkpw : Str → Str → Bool) (s : Session) (uname pw : Str) :
    DB → List Nat → DB
  | db, [] => db
  | db, n :: ns =>
    loginChain checkpw s uname pw ((login checkpw n db s uname pw).2.1) ns

/- ------------------------------------------------------------------ -/
/- Request gate decorators (`app.py` lines 272-308).                  -/
/- ------------------------------------------------------------------ -/

/-- Outcome of a gate decorator before the wrapped handler runs. -/
inductive GateResult where
  | redirectLogin
  | redirectChangePassword
  | forbidden403
  | proceed
deriving DecidableEq, Repr

/-- `login_required`: re-fetch the account by id on every request; missing or
inactive clears the session; `force_password_change` redirects everything but
the change-password and logout endpoints. -/
def login_required (db : DB) (s : Session) (endpoint : Str) :
    GateResult × Session :=
  match s.user_id with
  | none => (.redirectLogin, s)
  | some uid =>
    match db.users.find? (fun u => u.id == uid) with
    | none => (.redirectLogin, Session.cleared)
    | some u =>
      if !u.is_active then (.redirectLogin, Session.cleared)
      else if u.force_password_change && endpoint != "change_password".data
          && endpoint != "logout".data then
        (.redirectChangePassword, s)
      else (.proceed, s)

/-- `manager_required`: same existence/active re-check, then a role test **on
the session's cached `role` claim** (`session.get` in the source). -/
def manager_required (db : DB) (s : Session) : GateResult × Session :=
  match s.user_id with
  | none => (.redirectLogin, s)
  | some uid =>
    match db.users.find? (fun u => u.id == uid) with
    | none => (.redirectLogin, Session.cleared)
    | some u =>
      if !u.is_active then (.redirectLogin, Session.cleared)
      else if s.role != some "manager".data then (.forbidden403, s)
      else (.proceed, s)

/- ------------------------------------------------------------------ -/
/- HTTP response shape for the JSON API routes.                       -/
/- ------------------------------------------------------------------ -/

/-- Parsed record as returned by `GET /api/records`: the row plus the
backward-compatibility `reason` field (first reason, or empty). -/
structure RecordView where
  row : BanRecord
  reason : Str
deriving DecidableEq, Repr

/-- JSON body of an API response. -/
inductive ApiBody where
  | err (msg : Str)
  | msg (m : Str)
  | created (id : Nat) (m : Str)
  | record (r : BanRecord) (timeline : List TimelineEntry) (photos : List Photo)
  | records (rs : List RecordView)
deriving DecidableEq, Repr

/-- An HTTP status code together with its JSON body. -/
structure ApiResponse where
  code : Nat
  body : ApiBody
deriving DecidableEq, Repr

/- ------------------------------------------------------------------ -/
/- Auto-expiry sweep (`check_expired_bans`, `app.py` lines 1236-1262). -/
/- ------------------------------------------------------------------ -/

/-- The `WHERE` clause of the sweep's `SELECT`: active, temporary, date-typed
expiration, with `expiration_date <= today` (SQL `NULL` compares false). -/
def expiresToday (today : Str) (r : BanRecord) : Bool :=
  r.status == "active".data && r.ban_type == "temporary".data &&
    r.expiration_type == some "date".data &&
    (match r.expiration_date with
     | some d => strLeB d today
     | none => false)

/-- The system timeline entry the sweep appends for each expired record. -/
def autoExpireEntry (rid : Nat) (today : Str) : TimelineEntry :=
  ⟨rid, today, none, "Ban auto-expired based on expiration date".data, true⟩

/-- One iteration of the sweep's loop body: `UPDATE records SET
status = expired WHERE id = ?` plus the system timeline `INSERT`. -/
def expireOne (today : Str) (db : DB) (rid : Nat) : DB :=
  { db with
    records := db.records.map (fun r =>
      if r.id == rid then { r with status := "expired".data } else r),
    timeline_entries := db.timeline_entries ++ [autoExpireEntry rid today] }

/-- `check_expired_bans()`: select the due record ids once, then loop. -/
def check_expired_bans (today : Str) (db : DB) : DB :=
  let expired := (db.records.filter (expiresToday today)).map (fun r => r.id)
  expired.foldl (expireOne today) db

/-- `GET /dnr` (the ban-list page): runs the sweep, then renders. -/
def dnr_list (today : Str) (db : DB) : DB :=
  check_expired_bans today db

/- ------------------------------------------------------------------ -/
/- `GET /api/records/<id>` (`app.py` lines 2861-2899).                -/
/- ------------------------------------------------------------------ -/

/-- `ORDER BY entry_date DESC, id DESC`: stable-sort ascending by date over
the insertion-ordered table, then reverse. -/
def timelineDesc (tl : List TimelineEntry) : List TimelineEntry :=
  (sortBy (fun a b => strLeB a.entry_date b.entry_date) tl).reverse

/-- `ORDER BY upload_date DESC` for the photos of a record. -/
def photosDesc (ps : List Photo) : List Photo :=
  (sortBy (fun a b => strLeB a.upload_date b.upload_date) ps).reverse

/-- `get_record(record_id)`: NO sweep; fetch the row, 404 when absent, else
return it with its timeline (newest first) and photos embedded. -/
def get_record (db : DB) (record_id : Nat) : ApiResponse × DB :=
  match db.records.find? (fun r => r.id == record_id) with
  | none => (⟨404, .err "Record not found".data⟩, db)
  | some r =>
    (⟨200,
      .record r
        (timelineDesc (db.timeline_entries.filter (fun t => t.record_id == record_id)))
        (photosDesc (db.photos.filter (fun p => p.record_id == record_id)))⟩,
      db)

/- ------------------------------------------------------------------ -/
/- `GET /api/records` (`app.py` lines 1607-1687).                     -/
/- ------------------------------------------------------------------ -/

/-- `parts[-1].lower()` of `name.strip().split()`, empty when no parts. -/
def lastNameKey (name : Str) : Str :=
  match (pySplit (pyStrip name)).getLast? with
  | none => []
  | some last => pyLower last

/-- `a ≤ b` on pairs of strings, lexicographically (Python tuple keys). -/
def pairLe (a b : Str × Str) : Bool :=
  strLtB a.1 b.1 || (a.1 == b.1 && strLeB a.2 b.2)

/-- The ascending comparator for each validated `sort` mode of
`get_records`. -/
def recordSortLe (sort : Str) (a b : BanRecord) : Bool :=
  if sort == "last_name".data then
    pairLe (lastNameKey a.guest_name, pyLower a.guest_name)
      (lastNameKey b.guest_name, pyLower b.guest_name)
  else if sort == "date".data then strLeB a.date_added b.date_added
  else if sort == "status".data then
    pairLe (a.status, pyLower a.guest_name) (b.status, pyLower b.guest_name)
  else if sort == "ban_type".data then
    pairLe (a.ban_type, pyLower a.guest_name) (b.ban_type, pyLower b.guest_name)
  else strLeB (pyLower a.guest_name) (pyLower b.guest_name)

/-- `get_records`: sweep first, then the dynamically built `WHERE` clause
(each filter active only when its query parameter is non-empty; `LIKE` is
case-insensitive containment), then the validated sort and direction, then
the `reasons`-parsing map adding the compatibility `reason` field. -/
def get_records (today : Str) (db : DB)
    (status_filter ban_type_filter search0 sort0 dir0 : Str) :
    ApiResponse × DB :=
  let db₁ := check_expired_bans today db
  let search := pyStrip search0
  let dirA := pyLower (pyStrip dir0)
  let dirB := if dirA == "asc".data || dirA == "desc".data then dirA else "asc".data
  let sortA := pyStrip sort0
  let sortOk := sortA == "name".data || sortA == "last_name".data ||
    sortA == "date".data || sortA == "status".data || sortA == "ban_type".data
  let sortB := if sortOk then sortA else "name".data
  let dirC := if sortOk then dirB else "asc".data
  let filtered := db₁.records.filter (fun r =>
    (status_filter.isEmpty || r.status == status_filter) &&
    (ban_type_filter.isEmpty || r.ban_type == ban_type_filter) &&
    (search.isEmpty || containsSub (pyLower r.guest_name) (pyLower search)))
  let sorted := sortBy (recordSortLe sortB) filtered
  let ordered := if dirC == "desc".data then sorted.reverse else sorted
  (⟨200, .records (ordered.map (fun r => ⟨r, r.reasons.headD []⟩))⟩, db₁)

/- ------------------------------------------------------------------ -/
/- `POST /api/records` (`add_record`, `app.py` lines 2902-2968).      -/
/- ------------------------------------------------------------------ -/

/-- The fixed allow-list `BAN_REASONS` from `app.py`. -/
def BAN_REASONS : List Str :=
  ["Noise complaints multiple incidents".data,
   "Smoking in non smoking room".data,
   "Damage under review".data,
   "Housekeeping safety concern".data,
   "Aggressive or abusive behavior toward staff".data,
   "Policy violation warning issued".data,
   "Third party booking dispute".data,
   "Chargeback or payment dispute pending".data,
   "Local police involvement without arrest".data,
   "Welfare check initiated".data,
   "Ruined linen".data,
   "Scammer".data,
   "Animals".data,
   "Drug use".data,
   "Former employee on bad terms".data,
   "Stole property".data]

/-- SQLite rowid allocation for `records` (no deletes in this subsystem). -/
def nextRecordId (db : DB) : Nat :=
  (db.records.foldr (fun r m => max r.id m) 0) + 1

/-- Python falsy-string to SQL `NULL`: `x or None`. -/
def orNone (s : Str) : Option Str := if s.isEmpty then none else some s

/-- `add_record`: truncating field extraction, the validation chain in source
order, reason allow-list filtering, then the atomic record + first-timeline
transaction (`run_transaction`); `txOk = false` embeds a storage failure of
that transaction, which rolls back and answers 500. -/
def add_record (today : Str) (db : DB) (guest_name0 ban_type0 : Str)
    (reasons : List Str) (reason_detail0 staff_initials0 : Str)
    (incident_date expiration_type expiration_date : Str) (txOk : Bool) :
    ApiResponse × DB :=
  let guest_name := pyTake (pyStrip guest_name0) 200
  let ban_type := pyStrip ban_type0
  let reason_detail := pyTake (pyStrip reason_detail0) 1000
  let staff_initials := pyTake (pyStrip staff_initials0) 10
  if guest_name.isEmpty then (⟨400, .err "Guest name is required".data⟩, db)
  else if !(ban_type == "temporary".data || ban_type == "permanent".data) then
    (⟨400, .err "Invalid ban type".data⟩, db)
  else if reasons.isEmpty || decide (10 < reasons.length) then
    (⟨400, .err "At least one reason is required (max 10)".data⟩, db)
  else if staff_initials.isEmpty then
    (⟨400, .err "Staff initials are required".data⟩, db)
  else
    let valid_reasons := reasons.filter (fun r => BAN_REASONS.contains r)
    if valid_reasons.isEmpty then
      (⟨400, .err "At least one valid reason is required".data⟩, db)
    else if ban_type == "temporary".data && expiration_type.isEmpty then
      (⟨400, .err "Expiration type required for temporary bans".data⟩, db)
    else if expiration_type == "date".data && expiration_date.isEmpty then
      (⟨400, .err "Expiration date required".data⟩, db)
    else if txOk then
      let rid := nextRecordId db
      (⟨201, .created rid "Record added successfully".data⟩,
        { db with
          records := db.records ++
            [{ id := rid
               guest_name := guest_name
               status := "active".data
               ban_type := ban_type
               reasons := valid_reasons
               reason_detail := orNone reason_detail
               date_added := today
               incident_date := orNone incident_date
               expiration_type := orNone expiration_type
               expiration_date := orNone expiration_date }],
          timeline_entries := db.timeline_entries ++
            [⟨rid, today, some staff_initials,
              "Record created. ".data ++ pyCapitalize ban_type ++ " ban added.".data,
              true⟩] })
    else (⟨500, .err "Failed to create record. Please try again.".data⟩, db)

/- ------------------------------------------------------------------ -/
/- `POST /api/records/<id>/timeline` (`app.py` lines 2971-3010).      -/
/- ------------------------------------------------------------------ -/

/-- `add_timeline_entry(record_id)`: 404 when the record is absent, 400 when
it is already lifted, then truncating extraction and the non-empty checks,
then the staff-note `INSERT` (`is_system = 0`). -/
def add_timeline_entry (today : Str) (db : DB) (record_id : Nat)
    (staff_initials0 note0 : Str) : ApiResponse × DB :=
  match db.records.find? (fun r => r.id == record_id) with
  | none => (⟨404, .err "Record not found".data⟩, db)
  | some r =>
    if r.status == "lifted".data then
      (⟨400, .err "Cannot add notes to lifted records".data⟩, db)
    else
      let staff_initials := pyTake (pyStrip staff_initials0) 10
      let note := pyTake (pyStrip note0) 2000
      if staff_initials.isEmpty then
        (⟨400, .err "Staff initials required".data⟩, db)
      else if note.isEmpty then (⟨400, .err "Note is required".data⟩, db)
      else
        (⟨201, .msg "Note added successfully".data⟩,
          { db with
            timeline_entries := db.timeline_entries ++
              [⟨record_id, today, some staff_initials, note, false⟩] })

/- ------------------------------------------------------------------ -/
/- `POST /api/records/<id>/lift` (`lift_ban`, `app.py` 3100-3202).    -/
/- ------------------------------------------------------------------ -/

/-- The human-readable form of a lift type (`lift_type_display`). -/
def liftTypeDisplay (lt : Str) : Str :=
  if lt == "manager_override".data then "Manager Override".data
  else if lt == "issue_resolved".data then "Issue Resolved".data
  else if lt == "error_entry".data then "Error Entry".data
  else lt

/-- `lift_ban(record_id)`: 404 when absent; 400 `Record already lifted` when
terminal; on a wrong manager secret, one atomic best-effort transaction
writes the forensic `password_attempts` row and a hidden system timeline
entry (`logOk = false` embeds that transaction throwing, which is swallowed),
then the generic 400; on a correct secret, field validation, then the atomic
lift + system timeline transaction (`liftOk = false` embeds its failure,
answered 500), then the log-book entry. -/
def lift_ban (checkpw : Str → Str → Bool) (today todayIso : Str)
    (remoteAddr : Option Str) (logOk liftOk : Bool) (db : DB)
    (record_id : Nat) (password lift_type0 lift_reason0 initials0 : Str) :
    ApiResponse × DB :=
  let lift_type := pyStrip lift_type0
  let lift_reason := pyTake (pyStrip lift_reason0) 1000
  let initials := pyTake (pyStrip initials0) 10
  match db.records.find? (fun r => r.id == record_id) with
  | none => (⟨404, .err "Record not found".data⟩, db)
  | some r =>
    if r.status == "lifted".data then
      (⟨400, .err "Record already lifted".data⟩, db)
    else if !verify_manager_password checkpw db.users password then
      let ip := remoteAddr.getD "unknown".data
      let db' :=
        if logOk then
          { db with
            password_attempts := db.password_attempts ++
              [⟨record_id, todayIso, ip⟩],
            timeline_entries := db.timeline_entries ++
              [⟨record_id, today, none, "Failed lift attempt logged".data, true⟩] }
        else db
      (⟨400, .err "Unable to process request".data⟩, db')
    else if !(lift_type == "manager_override".data ||
        lift_type == "issue_resolved".data || lift_type == "error_entry".data) then
      (⟨400, .err "Invalid removal type".data⟩, db)
    else if lift_reason.isEmpty then
      (⟨400, .err "Removal reason is required".data⟩, db)
    else if initials.isEmpty then
      (⟨400, .err "Manager initials are required".data⟩, db)
    else if liftOk then
      let disp := liftTypeDisplay lift_type
      (⟨200, .msg "Ban lifted successfully".data⟩,
        { db with
          records := db.records.map (fun x =>
            if x.id == record_id then
              { x with
                status := "lifted".data
                lifted_date := some today
                lifted_type := some lift_type
                lifted_reason := some lift_reason
                lifted_initials := some initials }
            else x),
          timeline_entries := db.timeline_entries ++
            [⟨record_id, today, some "System".data,
              "Ban lifted. Type: ".data ++ disp ++ ". Reason: ".data ++ lift_reason,
              true⟩],
          log_entries := db.log_entries ++
            [⟨"System".data,
              "DNR removed for ".data ++ r.guest_name ++ ". Type: ".data ++
                disp ++ ".".data,
              some record_id, true⟩] })
    else (⟨500, .err "Failed to lift ban. Please try again.".data⟩, db)

/- ------------------------------------------------------------------ -/
/- Concrete fixtures used by witnesses and counterexamples.           -/
/- ------------------------------------------------------------------ -/

/-- A manager account (hash is an opaque token for the bcrypt oracle). -/
def mgrUser : User :=
  { id := 1, username := "boss".data, password_hash := "HMGR".data,
    role := "manager".data, is_active := true, force_password_change := false,
    last_login := none }

/-- A front-desk account. -/
def staffUser : User :=
  { id := 2, username := "bob".data, password_hash := "HBOB".data,
    role := "front_desk".data, is_active := true,
    force_password_change := false, last_login := none }

/-- An already-lifted ban record. -/
def liftedRec : BanRecord :=
  { id := 1, guest_name := "Guest One".data, status := "lifted".data,
    ban_type := "permanent".data, reasons := ["Scammer".data],
    reason_detail := none, date_added := "2024-01-01".data,
    incident_date := none, expiration_type := none, expiration_date := none }

/-- An active permanent ban record. -/
def activeRec : BanRecord :=
  { id := 1, guest_name := "Guest One".data, status := "active".data,
    ban_type := "permanent".data, reasons := ["Scammer".data],
    reason_detail := none, date_added := "2024-01-01".data,
    incident_date := none, expiration_type := none, expiration_date := none }

/-- An active temporary ban whose date-typed expiration is already due. -/
def dueRec : BanRecord :=
  { id := 1, guest_name := "Guest One".data, status := "active".data,
    ban_type := "temporary".data, reasons := ["Scammer".data],
    reason_detail := none, date_added := "2024-01-01".data,
    incident_date := none, expiration_type := some "date".data,
    expiration_date := some "2024-02-01".data }

/-- An otherwise-empty database holding the given users and records. -/
def mkDB (us : List User) (rs : List BanRecord) : DB :=
  { users := us, login_attempts := [], records := rs, timeline_entries := [],
    password_attempts := [], log_entries := [], photos := [] }

/-- A bcrypt oracle for fixtures: the only valid pair is the manager secret
`mpw` against the manager hash. -/
def fixCheckpw (p h : Str) : Bool := p == "mpw".data && h == "HMGR".data

/-- Membership is preserved by sorted insertion. -/
theorem mem_insertSorted {α : Type} (le : α → α → Bool) (a x : α)
    (l : List α) : x ∈ insertSorted le a l ↔ x = a ∨ x ∈ l := by
  induction l with
  | nil => simp [insertSorted]
  | cons b bs ih =>
    simp only [insertSorted]
    split
    · simp [List.mem_cons]
    · simp only [List.mem_cons, ih]
      tauto

/-- The stable sort is a permutation in the membership sense. -/
theorem mem_sortBy {α : Type} (le : α → α → Bool) (x : α) (l : List α) :
    x ∈ sortBy le l ↔ x ∈ l := by
  induction l with
  | nil => simp [sortBy]
  | cons a as ih =>
    simp only [sortBy, mem_insertSorted, ih, List.mem_cons]

/- ------------------------------------------------------------------ -/
/- C1: lifted is a terminal state.                                    -/
/- ------------------------------------------------------------------ -/

/-- C1: for every ban record whose stored status is `lifted`, both
state-changing operations fail and leave the whole database untouched:
`POST /api/records/id/timeline` answers 400 `Cannot add notes to lifted
records` without inserting an entry, and `POST /api/records/id/lift`
answers 400 `Record already lifted` without modifying any field — for every
submitted secret, hence also a correct manager secret. -/
theorem C1_lifted_is_terminal (today todayIso : Str) (remoteAddr : Option Str)
    (checkpw : Str → Str → Bool) (logOk liftOk : Bool) (db : DB) (rid : Nat)
    (si note pw lt lr ini : Str) (r : BanRecord)
    (hfind : db.records.find? (fun x => x.id == rid) = some r)
    (hstatus : r.status = "lifted".data) :
    add_timeline_entry today db rid si note =
      (⟨400, .err "Cannot add notes to lifted records".data⟩, db) ∧
    lift_ban checkpw today todayIso remoteAddr logOk liftOk db rid pw lt lr ini =
      (⟨400, .err "Record already lifted".data⟩, db) := by
  constructor
  · simp only [add_timeline_entry, hfind]
    simp [hstatus]
  · simp only [lift_ban, hfind]
    simp [hstatus]

/-- Witness for C1 at a concrete database: one lifted record, a correct
manager secret supplied to the lift. -/
theorem C1_lifted_is_terminal_witness :
    add_timeline_entry "2024-03-01".data (mkDB [mgrUser] [liftedRec]) 1
        "ab".data "note".data =
      (⟨400, .err "Cannot add notes to lifted records".data⟩,
        mkDB [mgrUser] [liftedRec]) ∧
    lift_ban fixCheckpw "2024-03-01".data "2024-03-01T10:00:00".data
        (some "10.0.0.9".data) true true (mkDB [mgrUser] [liftedRec]) 1
        "mpw".data "manager_override".data "done".data "MB".data =
      (⟨400, .err "Record already lifted".data⟩, mkDB [mgrUser] [liftedRec]) :=
  C1_lifted_is_terminal "2024-03-01".data "2024-03-01T10:00:00".data
    (some "10.0.0.9".data) fixCheckpw true true (mkDB [mgrUser] [liftedRec]) 1
    "ab".data "note".data "mpw".data "manager_override".data "done".data
    "MB".data liftedRec (by decide) (by decide)

/- ------------------------------------------------------------------ -/
/- C3: error shape of failed lift attempts.                           -/
/- ------------------------------------------------------------------ -/

/-- C3 counterexample: on the same database and submission, a lift with a
wrong manager secret answers `400` with body `Unable to process request`,
while a lift of a non-existent record id answers `404` with body `Record not
found` — the claim that both return the same status code and body is false. -/
theorem C3_counterexample :
    (lift_ban fixCheckpw "2024-03-01".data "2024-03-01T10:00:00".data
        (some "10.0.0.9".data) true true (mkDB [mgrUser] [activeRec]) 1
        "wrong".data "manager_override".data "done".data "MB".data).1 =
      ⟨400, .err "Unable to process request".data⟩ ∧
    (lift_ban fixCheckpw "2024-03-01".data "2024-03-01T10:00:00".data
        (some "10.0.0.9".data) true true (mkDB [mgrUser] [activeRec]) 7
        "wrong".data "manager_override".data "done".data "MB".data).1 =
      ⟨404, .err "Record not found".data⟩ ∧
    (⟨400, .err "Unable to process request".data⟩ : ApiResponse) ≠
      ⟨404, .err "Record not found".data⟩ := by
  refine ⟨by decide, by decide, by decide⟩

/-- C3 amended: a lift attempt on an existing, not-yet-lifted record with a
secret matching no active manager hash answers the one fixed generic response
`400` `Unable to process request` — the same for every submitted password,
lift type, reason and initials, so the response reveals nothing about which
field was wrong — while a lift attempt on a non-existent record id answers
`404` `Record not found`; the two error shapes differ. -/
theorem C3_failed_lift_shapes (checkpw : Str → Str → Bool)
    (today todayIso : Str) (remoteAddr : Option Str) (logOk liftOk : Bool)
    (db : DB) (rid ridMissing : Nat) (pw lt lr ini pw2 lt2 lr2 ini2 : Str)
    (r : BanRecord) (hfind : db.records.find? (fun x => x.id == rid) = some r)
    (hstatus : (r.status == "lifted".data) = false)
    (hv : verify_manager_password checkpw db.users pw = false)
    (hmiss : db.records.find? (fun x => x.id == ridMissing) = none) :
    (lift_ban checkpw today todayIso remoteAddr logOk liftOk db rid
        pw lt lr ini).1 = ⟨400, .err "Unable to process request".data⟩ ∧
    (lift_ban checkpw today todayIso remoteAddr logOk liftOk db ridMissing
        pw2 lt2 lr2 ini2).1 = ⟨404, .err "Record not found".data⟩ := by
  constructor
  · simp only [lift_ban, hfind]
    simp [hstatus, hv]
  · simp only [lift_ban, hmiss]

/-- Witness for C3 amended at the concrete fixture database. -/
theorem C3_failed_lift_shapes_witness :
    (lift_ban fixCheckpw "2024-03-01".data "2024-03-01T10:00:00".data
        (some "10.0.0.9".data) true true (mkDB [mgrUser] [activeRec]) 1
        "wrong".data "manager_override".data "done".data "MB".data).1 =
      ⟨400, .err "Unable to process request".data⟩ ∧
    (lift_ban fixCheckpw "2024-03-01".data "2024-03-01T10:00:00".data
        (some "10.0.0.9".data) true true (mkDB [mgrUser] [activeRec]) 7
        "x".data "y".data "z".data "w".data).1 =
      ⟨404, .err "Record not found".data⟩ :=
  C3_failed_lift_shapes fixCheckpw "2024-03-01".data
    "2024-03-01T10:00:00".data (some "10.0.0.9".data) true true
    (mkDB [mgrUser] [activeRec]) 1 7 "wrong".data "manager_override".data
    "done".data "MB".data "x".data "y".data "z".data "w".data activeRec
    (by decide) (by decide) (by decide) (by decide)

/- ------------------------------------------------------------------ -/
/- C9: forensic logging on a wrong manager secret.                    -/
/- ------------------------------------------------------------------ -/

/-- C9: when the submitted secret matches no active manager hash, the ban
record table is untouched, and — when the logging transaction commits — the
database additionally receives exactly one Failed-Attempt row (record id,
timestamp, caller IP) and one hidden `is_system` timeline entry, appended
together; when the logging transaction fails, it is swallowed and the
database is left exactly as it was; in both cases the user-facing response is
the same generic `400` `Unable to process request`. -/
theorem C9_failed_lift_forensics (checkpw : Str → Str → Bool)
    (today todayIso : Str) (remoteAddr : Option Str) (liftOk : Bool) (db : DB)
    (rid : Nat) (pw lt lr ini : Str) (r : BanRecord)
    (hfind : db.records.find? (fun x => x.id == rid) = some r)
    (hstatus : (r.status == "lifted".data) = false)
    (hv : verify_manager_password checkpw db.users pw = false) :
    lift_ban checkpw today todayIso remoteAddr true liftOk db rid pw lt lr ini =
      (⟨400, .err "Unable to process request".data⟩,
        { db with
          password_attempts := db.password_attempts ++
            [⟨rid, todayIso, remoteAddr.getD "unknown".data⟩],
          timeline_entries := db.timeline_entries ++
            [⟨rid, today, none, "Failed lift attempt logged".data, true⟩] }) ∧
    lift_ban checkpw today todayIso remoteAddr false liftOk db rid pw lt lr ini =
      (⟨400, .err "Unable to process request".data⟩, db) := by
  constructor
  · simp only [lift_ban, hfind]
    simp [hstatus, hv]
  · simp only [lift_ban, hfind]
    simp [hstatus, hv]

/-- Witness for C9 at the concrete fixture database, both with the logging
transaction committing and with it thrown away. -/
theorem C9_failed_lift_forensics_witness :
    lift_ban fixCheckpw "2024-03-01".data "2024-03-01T10:00:00".data
        (some "10.0.0.9".data) true true (mkDB [mgrUser] [activeRec]) 1
        "wrong".data "manager_override".data "done".data "MB".data =
      (⟨400, .err "Unable to process request".data⟩,
        { mkDB [mgrUser] [activeRec] with
          password_attempts :=
            [⟨1, "2024-03-01T10:00:00".data, "10.0.0.9".data⟩],
          timeline_entries :=
            [⟨1, "2024-03-01".data, none, "Failed lift attempt logged".data,
              true⟩] }) ∧
    lift_ban fixCheckpw "2024-03-01".data "2024-03-01T10:00:00".data
        (some "10.0.0.9".data) false true (mkDB [mgrUser] [activeRec]) 1
        "wrong".data "manager_override".data "done".data "MB".data =
      (⟨400, .err "Unable to process request".data⟩,
        mkDB [mgrUser] [activeRec]) :=
  C9_failed_lift_forensics fixCheckpw "2024-03-01".data
    "2024-03-01T10:00:00".data (some "10.0.0.9".data) true
    (mkDB [mgrUser] [activeRec]) 1 "wrong".data "manager_override".data
    "done".data "MB".data activeRec (by decide) (by decide) (by decide)

/- ------------------------------------------------------------------ -/
/- C7: reason allow-list enforcement at record creation.              -/
/- ------------------------------------------------------------------ -/

/-- C7: `POST /api/records` stores as reasons exactly the submitted values on
`BAN_REASONS`: (1) whatever the outcome, every record in the store either was
there before or carries exactly the allow-listed subset of the submission, so
an off-list value is never stored; (2) one valid plus two invalid values
stores only the valid one, with a 201; (3) only invalid values is a 400 `At
least one valid reason is required` with nothing stored; (4) an empty list
and (5) more than 10 values are a 400 `At least one reason is required (max
10)` with nothing stored.  The hypotheses say the remaining submitted fields
pass their own validation (the ban is a permanent one). -/
theorem C7_reason_allow_list (today : Str) (db : DB)
    (gn0 bt0 rd0 si0 inc et ed : Str)
    (hname : (pyTake (pyStrip gn0) 200).isEmpty = false)
    (hbtv : pyStrip bt0 = "permanent".data)
    (hsi : (pyTake (pyStrip si0) 10).isEmpty = false)
    (hdate : (et == "date".data && ed.isEmpty) = false) :
    (∀ rs txOk, ∀ r ∈ (add_record today db gn0 bt0 rs rd0 si0 inc et ed
        txOk).2.records,
      r ∈ db.records ∨
        r.reasons = rs.filter (fun v => BAN_REASONS.contains v)) ∧
    (∀ v i1 i2, BAN_REASONS.contains v = true →
      BAN_REASONS.contains i1 = false → BAN_REASONS.contains i2 = false →
      (add_record today db gn0 bt0 [v, i1, i2] rd0 si0 inc et ed true).1 =
        ⟨201, .created (nextRecordId db) "Record added successfully".data⟩ ∧
      (((add_record today db gn0 bt0 [v, i1, i2] rd0 si0 inc et ed
          true).2.records.map (fun r => r.reasons)).getLast? = some [v])) ∧
    (∀ rs txOk, rs ≠ [] → rs.length ≤ 10 →
      (∀ x ∈ rs, BAN_REASONS.contains x = false) →
      add_record today db gn0 bt0 rs rd0 si0 inc et ed txOk =
        (⟨400, .err "At least one valid reason is required".data⟩, db)) ∧
    (∀ txOk, add_record today db gn0 bt0 [] rd0 si0 inc et ed txOk =
      (⟨400, .err "At least one reason is required (max 10)".data⟩, db)) ∧
    (∀ rs txOk, 10 < rs.length →
      add_record today db gn0 bt0 rs rd0 si0 inc et ed txOk =
        (⟨400, .err "At least one reason is required (max 10)".data⟩, db)) := by
  have ebt1 : (("permanent".data : Str) == "temporary".data) = false := rfl
  have ebt2 : (("permanent".data : Str) == "permanent".data) = true := rfl
  refine ⟨?_, ?_, ?_, ?_, ?_⟩
  · intro rs txOk r hr
    simp only [add_record] at hr
    repeat' split at hr
    all_goals
      first
        | exact .inl hr
        | (rcases List.mem_append.mp hr with h | h
           · exact .inl h
           · right
             simp only [List.mem_singleton] at h
             subst h
             rfl)
  · intro v i1 i2 hv hi1 hi2
    have hfil : List.filter (fun r => BAN_REASONS.contains r) [v, i1, i2] =
        [v] := by
      simp only [List.filter_cons, List.filter_nil, hv, hi1, hi2]
      rfl
    have hemp3 : ([v, i1, i2] : List Str).isEmpty = false := rfl
    have hlen3 : decide (10 < ([v, i1, i2] : List Str).length) = false := rfl
    constructor
    · simp only [add_record, hfil, hname, hbtv, ebt1, ebt2, hsi, hdate,
        hemp3, hlen3, List.isEmpty_cons, Bool.false_or, Bool.or_false,
        Bool.or_true, Bool.not_true, Bool.not_false, Bool.false_and,
        Bool.and_false]
      rfl
    · simp only [add_record, hfil, hname, hbtv, ebt1, ebt2, hsi, hdate,
        hemp3, hlen3, List.isEmpty_cons, Bool.false_or, Bool.or_false,
        Bool.or_true, Bool.not_true, Bool.not_false, Bool.false_and,
        Bool.and_false, Bool.false_eq_true, if_false, eq_self_iff_true,
        if_true, List.map_append, List.map_cons, List.map_nil,
        List.getLast?_concat]
  · intro rs txOk hne hlen hall
    have hfil : List.filter (fun r => BAN_REASONS.contains r) rs = [] := by
      rw [List.filter_eq_nil_iff]
      intro x hx
      simpa using hall x hx
    have hemp : rs.isEmpty = false := by
      cases rs with
      | nil => exact absurd rfl hne
      | cons a l => rfl
    have hlt : decide (10 < rs.length) = false :=
      decide_eq_false (Nat.not_lt.mpr hlen)
    simp only [add_record, hfil, hname, hbtv, ebt1, ebt2, hsi, hemp, hlt,
      List.isEmpty_nil, Bool.false_or, Bool.or_false, Bool.not_true,
      Bool.not_false, Bool.false_and]
    rfl
  · intro txOk
    simp only [add_record, hname, hbtv, ebt1, ebt2, List.isEmpty_nil,
      Bool.false_or, Bool.true_or, Bool.or_false, Bool.not_true,
      Bool.not_false]
    rfl
  · intro rs txOk hlen
    have hlt : decide (10 < rs.length) = true := decide_eq_true hlen
    simp only [add_record, hname, hbtv, ebt1, ebt2, hlt, Bool.or_true,
      Bool.false_or, Bool.not_true, Bool.not_false]
    rfl

/-- Witness for C7 at a concrete creation request: guest `Guest One`,
permanent ban, initials `AB`, one valid reason (`Scammer`) among two
off-list ones; then the all-invalid and empty-list rejections. -/
theorem C7_reason_allow_list_witness :
    ((add_record "2024-03-01".data (mkDB [mgrUser] []) "Guest One".data
        "permanent".data ["Scammer".data, "bogus".data, "fake".data] []
        "AB".data [] [] [] true).1 =
      ⟨201, .created (nextRecordId (mkDB [mgrUser] []))
        "Record added successfully".data⟩ ∧
    ((add_record "2024-03-01".data (mkDB [mgrUser] []) "Guest One".data
        "permanent".data ["Scammer".data, "bogus".data, "fake".data] []
        "AB".data [] [] [] true).2.records.map (fun r => r.reasons)).getLast? =
      some ["Scammer".data]) ∧
    add_record "2024-03-01".data (mkDB [mgrUser] []) "Guest One".data
        "permanent".data ["bogus".data, "fake".data] [] "AB".data [] [] []
        true =
      (⟨400, .err "At least one valid reason is required".data⟩,
        mkDB [mgrUser] []) ∧
    add_record "2024-03-01".data (mkDB [mgrUser] []) "Guest One".data
        "permanent".data [] [] "AB".data [] [] [] true =
      (⟨400, .err "At least one reason is required (max 10)".data⟩,
        mkDB [mgrUser] []) := by
  have T := C7_reason_allow_list "2024-03-01".data (mkDB [mgrUser] [])
    "Guest One".data "permanent".data [] "AB".data [] [] []
    (by decide) (by decide) (by decide) (by decide)
  exact ⟨T.2.1 "Scammer".data "bogus".data "fake".data (by decide) (by decide)
      (by decide),
    T.2.2.1 ["bogus".data, "fake".data] true (by decide) (by decide)
      (by decide),
    T.2.2.2.1 true⟩

/- ------------------------------------------------------------------ -/
/- C10: silent truncation of over-length free-text fields.            -/
/- ------------------------------------------------------------------ -/

/-- C10 counterexample: the handlers strip whitespace before truncating, so
the stored value is not in general a prefix of the submitted one: submitting
the 11-character initials string with a leading space stores the last ten
characters, which differs from the first ten characters of the submission. -/
theorem C10_counterexample :
    (" abcdefghij".data : Str).length = 11 ∧
    ((add_timeline_entry "2024-03-01".data (mkDB [mgrUser] [activeRec]) 1
        " abcdefghij".data "note".data).2.timeline_entries.map
        (fun t => t.staff_initials)).getLast? =
      some (some "abcdefghij".data) ∧
    ("abcdefghij".data : Str) ≠ (" abcdefghij".data : Str).take 10 := by
  refine ⟨by decide, by decide, by decide⟩

/-- C10 amended: over-length free-text fields are silently truncated, never
rejected, and the stored value is the truncated prefix of the
whitespace-stripped submission: `guest_name` to 200, `reason_detail` and
`lift_reason` to 1000, `staff_initials` and lift initials to 10, a timeline
note to 2000.  For each endpoint, with every other validation passing, the
request succeeds whatever the length of the free-text inputs, and stores
exactly `strip`-then-`take`. -/
theorem C10_truncation (today todayIso : Str) (remoteAddr : Option Str)
    (db : DB) (checkpw : Str → Str → Bool) (logOk : Bool)
    (gn0 bt0 rd0 si0 inc et ed v : Str)
    (hname : (pyTake (pyStrip gn0) 200).isEmpty = false)
    (hbtv : pyStrip bt0 = "permanent".data)
    (hsi : (pyTake (pyStrip si0) 10).isEmpty = false)
    (hdate : (et == "date".data && ed.isEmpty) = false)
    (hv : BAN_REASONS.contains v = true)
    (rid : Nat) (si1 n1 pw lt0 lr0 ini0 : Str) (r : BanRecord)
    (hfind : db.records.find? (fun x => x.id == rid) = some r)
    (hst : (r.status == "lifted".data) = false)
    (hsi1 : (pyTake (pyStrip si1) 10).isEmpty = false)
    (hn1 : (pyTake (pyStrip n1) 2000).isEmpty = false)
    (hmv : verify_manager_password checkpw db.users pw = true)
    (hlt : pyStrip lt0 = "manager_override".data)
    (hlr : (pyTake (pyStrip lr0) 1000).isEmpty = false)
    (hini : (pyTake (pyStrip ini0) 10).isEmpty = false) :
    ((add_record today db gn0 bt0 [v] rd0 si0 inc et ed true).1.code = 201 ∧
     ((add_record today db gn0 bt0 [v] rd0 si0 inc et ed true).2.records.map
        (fun x => (x.guest_name, x.reason_detail))).getLast? =
       some (pyTake (pyStrip gn0) 200, orNone (pyTake (pyStrip rd0) 1000)) ∧
     ((add_record today db gn0 bt0 [v] rd0 si0 inc et ed
        true).2.timeline_entries.map (fun t => t.staff_initials)).getLast? =
       some (some (pyTake (pyStrip si0) 10))) ∧
    add_timeline_entry today db rid si1 n1 =
      (⟨201, .msg "Note added successfully".data⟩,
        { db with
          timeline_entries := db.timeline_entries ++
            [⟨rid, today, some (pyTake (pyStrip si1) 10),
              pyTake (pyStrip n1) 2000, false⟩] }) ∧
    ((lift_ban checkpw today todayIso remoteAddr logOk true db rid pw lt0 lr0
        ini0).1 = ⟨200, .msg "Ban lifted successfully".data⟩ ∧
     (lift_ban checkpw today todayIso remoteAddr logOk true db rid pw lt0 lr0
        ini0).2.records = db.records.map (fun x =>
          if x.id == rid then
            { x with
              status := "lifted".data
              lifted_date := some today
              lifted_type := some (pyStrip lt0)
              lifted_reason := some (pyTake (pyStrip lr0) 1000)
              lifted_initials := some (pyTake (pyStrip ini0) 10) }
          else x)) := by
  have ebt1 : (("permanent".data : Str) == "temporary".data) = false := rfl
  have ebt2 : (("permanent".data : Str) == "permanent".data) = true := rfl
  have emo : (("manager_override".data : Str) == "manager_override".data)
      = true := rfl
  have hfil : List.filter (fun x => BAN_REASONS.contains x) [v] = [v] := by
    simp only [List.filter_cons, List.filter_nil, hv]
    rfl
  have hemp1 : ([v] : List Str).isEmpty = false := rfl
  have hlen1 : decide (10 < ([v] : List Str).length) = false := rfl
  refine ⟨⟨?_, ?_, ?_⟩, ?_, ?_, ?_⟩
  · simp only [add_record, hfil, hname, hbtv, ebt1, ebt2, hsi, hdate, hemp1,
      hlen1, Bool.false_or, Bool.or_false, Bool.not_true, Bool.not_false,
      Bool.false_and, Bool.and_false]
    rfl
  · simp only [add_record, hfil, hname, hbtv, ebt1, ebt2, hsi, hdate, hemp1,
      hlen1, Bool.false_or, Bool.or_false, Bool.not_true, Bool.not_false,
      Bool.false_and, Bool.and_false, Bool.false_eq_true, if_false,
      eq_self_iff_true, if_true, List.map_append, List.map_cons,
      List.map_nil, List.getLast?_concat]
  · simp only [add_record, hfil, hname, hbtv, ebt1, ebt2, hsi, hdate, hemp1,
      hlen1, Bool.false_or, Bool.or_false, Bool.not_true, Bool.not_false,
      Bool.false_and, Bool.and_false, Bool.false_eq_true, if_false,
      eq_self_iff_true, if_true, List.map_append, List.map_cons,
      List.map_nil, List.getLast?_concat]
  · simp only [add_timeline_entry, hfind]
    simp only [hst, hsi1, hn1, Bool.false_eq_true, if_false]
  · simp only [lift_ban, hfind]
    rw [hlt]
    simp only [hst, hmv, emo, Bool.not_true, Bool.not_false, Bool.true_or,
      hlr, hini, Bool.false_eq_true, if_false, eq_self_iff_true, if_true]
  · simp only [lift_ban, hfind]
    rw [hlt]
    simp only [hst, hmv, emo, Bool.not_true, Bool.not_false, Bool.true_or,
      hlr, hini, Bool.false_eq_true, if_false, eq_self_iff_true, if_true]

/-- Witness for C10 amended, with an over-length free-text input: the
11-character initials string (cap 10) used in all three endpoints; each
request succeeds and stores the strip-then-truncate value. -/
theorem C10_truncation_witness :
    ((add_record "2024-03-01".data (mkDB [mgrUser] [activeRec])
        " Guest One ".data "permanent".data ["Scammer".data] []
        " abcdefghij".data [] [] [] true).1.code = 201 ∧
     ((add_record "2024-03-01".data (mkDB [mgrUser] [activeRec])
        " Guest One ".data "permanent".data ["Scammer".data] []
        " abcdefghij".data [] [] [] true).2.records.map
        (fun x => (x.guest_name, x.reason_detail))).getLast? =
       some ("Guest One".data, none) ∧
     ((add_record "2024-03-01".data (mkDB [mgrUser] [activeRec])
        " Guest One ".data "permanent".data ["Scammer".data] []
        " abcdefghij".data [] [] [] true).2.timeline_entries.map
        (fun t => t.staff_initials)).getLast? =
       some (some "abcdefghij".data)) ∧
    add_timeline_entry "2024-03-01".data (mkDB [mgrUser] [activeRec]) 1
        " abcdefghij".data "note".data =
      (⟨201, .msg "Note added successfully".data⟩,
        { mkDB [mgrUser] [activeRec] with
          timeline_entries :=
            [⟨1, "2024-03-01".data, some "abcdefghij".data, "note".data,
              false⟩] }) ∧
    ((lift_ban fixCheckpw "2024-03-01".data "2024-03-01T10:00:00".data
        (some "10.0.0.9".data) true true (mkDB [mgrUser] [activeRec]) 1
        "mpw".data "manager_override".data "done".data
        " abcdefghijk".data).1 = ⟨200, .msg "Ban lifted successfully".data⟩ ∧
     (lift_ban fixCheckpw "2024-03-01".data "2024-03-01T10:00:00".data
        (some "10.0.0.9".data) true true (mkDB [mgrUser] [activeRec]) 1
        "mpw".data "manager_override".data "done".data
        " abcdefghijk".data).2.records = [{ activeRec with
          status := "lifted".data
          lifted_date := some "2024-03-01".data
          lifted_type := some "manager_override".data
          lifted_reason := some "done".data
          lifted_initials := some "abcdefghij".data }]) := by
  have T := C10_truncation "2024-03-01".data "2024-03-01T10:00:00".data
    (some "10.0.0.9".data) (mkDB [mgrUser] [activeRec]) fixCheckpw true
    " Guest One ".data "permanent".data [] " abcdefghij".data
    [] [] [] "Scammer".data
    (by decide) (by decide) (by decide) (by decide) (by decide)
    1 " abcdefghij".data "note".data "mpw".data
    "manager_override".data "done".data " abcdefghijk".data activeRec
    (by decide) (by decide) (by decide) (by decide) (by decide) (by decide)
    (by decide) (by decide)
  refine ⟨⟨T.1.1, ?_, ?_⟩, ?_, T.2.2.1, ?_⟩
  · rw [T.1.2.1]
    decide
  · rw [T.1.2.2]
    decide
  · rw [T.2.1]
    decide
  · rw [T.2.2.2]
    decide

/- ------------------------------------------------------------------ -/
/- C2: the auto-expire sweep is idempotent.                           -/
/- ------------------------------------------------------------------ -/

/-- Normal form of the sweep's loop: one map over the records (status
`expired` for every selected id) and one appended block of system timeline
entries, one per selected id, all other tables untouched. -/
theorem expire_foldl (today : Str) (ids : List Nat) (db : DB) :
    ids.foldl (expireOne today) db =
      { db with
        records := db.records.map (fun r =>
          if ids.contains r.id then { r with status := "expired".data }
          else r),
        timeline_entries := db.timeline_entries ++
          ids.map (fun i => autoExpireEntry i today) } := by
  induction ids generalizing db with
  | nil =>
    simp only [List.foldl_nil, List.contains_nil, Bool.false_eq_true,
      if_false, List.map_id', List.map_nil, List.append_nil]
  | cons i is ih =>
    simp only [List.foldl_cons]
    rw [ih]
    simp only [expireOne, List.map_map, List.map_cons, List.append_assoc,
      List.singleton_append, List.contains_cons]
    congr 1
    apply List.map_congr_left
    intro r hr
    by_cases h1 : (r.id == i) = true
    · by_cases h2 : is.contains r.id = true
      · simp [Function.comp, h1, h2]
      · simp [Function.comp, h1, h2]
    · by_cases h2 : is.contains r.id = true
      · simp [Function.comp, h1, h2]
      · simp [Function.comp, h1, h2]

/-- After a sweep, no stored record still satisfies the sweep's selection. -/
theorem sweep_no_due (today : Str) (db : DB) :
    ∀ r ∈ (check_expired_bans today db).records,
      expiresToday today r = false := by
  intro r hr
  simp only [check_expired_bans] at hr
  rw [expire_foldl] at hr
  simp only [List.mem_map] at hr
  obtain ⟨s, hs, hsr⟩ := hr
  by_cases hc :
      ((db.records.filter (expiresToday today)).map
        (fun x => x.id)).contains s.id = true
  · rw [if_pos hc] at hsr
    subst hsr
    have efa : (("expired".data : Str) == "active".data) = false := rfl
    simp [expiresToday, efa]
  · rw [if_neg hc] at hsr
    subst hsr
    cases hdue : expiresToday today s with
    | false => rfl
    | true =>
      exact absurd
        (List.elem_eq_true_of_mem
          (List.mem_map_of_mem (fun x => x.id)
            (List.mem_filter.mpr ⟨hs, hdue⟩))) hc

/-- A sweep that selects nothing is the identity. -/
theorem sweep_eq_self_of_no_due (today : Str) (db : DB)
    (h : db.records.filter (expiresToday today) = []) :
    check_expired_bans today db = db := by
  simp only [check_expired_bans, h, List.map_nil, List.foldl_nil]

/-- C2: the auto-expire sweep is idempotent: a second run on the swept
database is a no-op (duplicating no timeline entry); the first run appends
exactly one system `auto-expired` entry per selected record; and — record
ids being unique, as the table's primary key makes them — it sets status
`expired` exactly on the records with `status = active`,
`ban_type = temporary`, `expiration_type = date` and `expiration_date`
at most `today`, leaving every other record untouched. -/
theorem C2_sweep_idempotent (today : Str) (db : DB) :
    check_expired_bans today (check_expired_bans today db) =
      check_expired_bans today db ∧
    (check_expired_bans today db).timeline_entries =
      db.timeline_entries ++
        (db.records.filter (expiresToday today)).map
          (fun r => autoExpireEntry r.id today) ∧
    ((db.records.map (fun r => r.id)).Nodup →
      (check_expired_bans today db).records =
        db.records.map (fun r =>
          if expiresToday today r then { r with status := "expired".data }
          else r)) := by
  refine ⟨?_, ?_, ?_⟩
  · exact sweep_eq_self_of_no_due today _
      (List.filter_eq_nil_iff.mpr
        (fun r hr => by simp [sweep_no_due today db r hr]))
  · simp only [check_expired_bans]
    rw [expire_foldl]
    simp only [List.map_map]
    rfl
  · intro hids
    simp only [check_expired_bans]
    rw [expire_foldl]
    apply List.map_congr_left
    intro r hr
    by_cases hdue : expiresToday today r = true
    · have hc : ((db.records.filter (expiresToday today)).map
          (fun x => x.id)).contains r.id = true :=
        List.elem_eq_true_of_mem
          (List.mem_map_of_mem (fun x => x.id)
            (List.mem_filter.mpr ⟨hr, hdue⟩))
      rw [if_pos hc, if_pos hdue]
    · have hc : ¬ ((db.records.filter (expiresToday today)).map
          (fun x => x.id)).contains r.id = true := by
        intro hcc
        obtain ⟨s, hsf, hsid⟩ := List.mem_map.mp (List.mem_of_elem_eq_true hcc)
        have hsr : s = r :=
          List.inj_on_of_nodup_map hids (List.mem_filter.mp hsf).1 hr hsid
        exact hdue (hsr ▸ (List.mem_filter.mp hsf).2)
      rw [if_neg hc, if_neg hdue]

/-- Witness for C2 on a one-record database holding a due temporary ban:
the sweep expires it and appends the system entry; a second run changes
nothing. -/
theorem C2_sweep_idempotent_witness :
    check_expired_bans "2024-03-01".data
        (check_expired_bans "2024-03-01".data (mkDB [] [dueRec])) =
      check_expired_bans "2024-03-01".data (mkDB [] [dueRec]) ∧
    (check_expired_bans "2024-03-01".data (mkDB [] [dueRec])).timeline_entries
      = [autoExpireEntry 1 "2024-03-01".data] ∧
    (check_expired_bans "2024-03-01".data (mkDB [] [dueRec])).records =
      [{ dueRec with status := "expired".data }] := by
  have T := C2_sweep_idempotent "2024-03-01".data (mkDB [] [dueRec])
  refine ⟨T.1, ?_, ?_⟩
  · rw [T.2.1]
    decide
  · rw [T.2.2 (by decide)]
    decide

/- ------------------------------------------------------------------ -/
/- C8: which read endpoints run the expiry sweep.                     -/
/- ------------------------------------------------------------------ -/

/-- C8 counterexample: `GET /api/records/id` does not run the sweep: on a
database holding one `active` temporary ban whose date-typed expiration
(2024-02-01) is before today (2024-03-01), it returns the record still
`active` and leaves the database untouched. -/
theorem C8_counterexample :
    (get_record (mkDB [] [dueRec]) 1).1 = ⟨200, .record dueRec [] []⟩ ∧
    (get_record (mkDB [] [dueRec]) 1).2 = mkDB [] [dueRec] ∧
    dueRec.status = "active".data ∧
    dueRec.ban_type = "temporary".data ∧
    dueRec.expiration_type = some "date".data ∧
    dueRec.expiration_date = some "2024-02-01".data ∧
    strLeB "2024-02-01".data "2024-03-01".data = true := by
  refine ⟨by decide, by decide, by decide, by decide, by decide, by decide,
    by decide⟩

/-- C8 amended: `GET /api/records` and the ban-list page run the sweep
first — the list endpoint never returns a record still matching the expiry
condition and leaves the swept store behind, and after the ban-list page no
stored record matches it either — but `GET /api/records/id` does NOT run
the sweep: it returns the stored record unchanged (so an overdue `active`
temporary ban is returned as-is) and leaves the database untouched. -/
theorem C8_sweep_before_reads (today : Str) (db : DB)
    (sf bf se so di : Str) (rid : Nat) (r : BanRecord)
    (hfind : db.records.find? (fun x => x.id == rid) = some r) :
    (∀ views, (get_records today db sf bf se so di).1.body =
        ApiBody.records views →
      ∀ rv ∈ views, expiresToday today rv.row = false) ∧
    (get_records today db sf bf se so di).2 = check_expired_bans today db ∧
    (∀ x ∈ (dnr_list today db).records, expiresToday today x = false) ∧
    get_record db rid =
      (⟨200, .record r
        (timelineDesc (db.timeline_entries.filter
          (fun t => t.record_id == rid)))
        (photosDesc (db.photos.filter (fun p => p.record_id == rid)))⟩,
        db) := by
  refine ⟨?_, rfl, ?_, ?_⟩
  · intro views hv rv hrv
    simp only [get_records, ApiBody.records.injEq] at hv
    subst hv
    obtain ⟨x, hx, hxe⟩ := List.mem_map.mp hrv
    have hrow : rv.row = x := by
      subst hxe
      rfl
    rw [hrow]
    repeat' split at hx
    all_goals
      first
        | exact sweep_no_due today db x
            (List.mem_filter.mp ((mem_sortBy _ _ _).mp hx)).1
        | (rw [List.mem_reverse] at hx
           exact sweep_no_due today db x
             (List.mem_filter.mp ((mem_sortBy _ _ _).mp hx)).1)
  · intro x hx
    exact sweep_no_due today db x hx
  · simp only [get_record, hfind]

/-- Witness for C8 amended on the one due record: the list endpoint returns
it already `expired`, while the single-record endpoint returns it `active`
and unswept. -/
theorem C8_sweep_before_reads_witness :
    expiresToday "2024-03-01".data
      ({ dueRec with status := "expired".data }) = false ∧
    get_record (mkDB [] [dueRec]) 1 =
      (⟨200, .record dueRec [] []⟩, mkDB [] [dueRec]) := by
  have T := C8_sweep_before_reads "2024-03-01".data (mkDB [] [dueRec])
    [] [] [] [] [] 1 dueRec (by decide)
  constructor
  · exact T.1 [⟨{ dueRec with status := "expired".data }, "Scammer".data⟩]
      (by decide)
      ⟨{ dueRec with status := "expired".data }, "Scammer".data⟩ (by decide)
  · rw [T.2.2.2]
    decide

/- ------------------------------------------------------------------ -/
/- C4: per-request re-validation by the gate decorators.              -/
/- ------------------------------------------------------------------ -/

/-- C4 counterexample: the manager-only gate tests the session's cached
`role` claim, not the freshly fetched account row: a user whose stored role
is `front_desk` (and active) but whose session still claims `manager`
proceeds instead of getting 403 Forbidden. -/
theorem C4_counterexample :
    (mkDB [staffUser] []).users.find? (fun u => u.id == 2) = some staffUser ∧
    staffUser.role ≠ "manager".data ∧
    staffUser.is_active = true ∧
    manager_required (mkDB [staffUser] [])
        ⟨some 2, some "bob".data, some "manager".data⟩ =
      (.proceed, ⟨some 2, some "bob".data, some "manager".data⟩) := by
  refine ⟨by decide, by decide, by decide, by decide⟩

/-- C4 amended: on every protected request the account row is re-fetched and
its existence and `is_active` flag are re-checked — a missing or deactivated
account clears the session and redirects to login on both decorators, so
deactivation takes effect on the next request — but the manager-only check
compares the session's cached `role` claim: with an existing active account
it returns 403 exactly when the session role is not `manager`, regardless of
the stored role, so a role change only takes effect after a fresh login. -/
theorem C4_gate_revalidation (db : DB) (s : Session) (ep : Str) (uid : Nat)
    (hs : s.user_id = some uid) :
    (db.users.find? (fun u => u.id == uid) = none →
      login_required db s ep = (.redirectLogin, Session.cleared) ∧
      manager_required db s = (.redirectLogin, Session.cleared)) ∧
    (∀ u, db.users.find? (fun x => x.id == uid) = some u →
      u.is_active = false →
      login_required db s ep = (.redirectLogin, Session.cleared) ∧
      manager_required db s = (.redirectLogin, Session.cleared)) ∧
    (∀ u, db.users.find? (fun x => x.id == uid) = some u →
      u.is_active = true →
      ((manager_required db s).1 = .forbidden403 ↔
        s.role ≠ some "manager".data)) := by
  refine ⟨?_, ?_, ?_⟩
  · intro hfind
    constructor
    · simp only [login_required, hs, hfind]
    · simp only [manager_required, hs, hfind]
  · intro u hfind hact
    constructor
    · simp only [login_required, hs, hfind]
      simp [hact]
    · simp only [manager_required, hs, hfind]
      simp [hact]
  · intro u hfind hact
    simp only [manager_required, hs, hfind]
    simp only [hact, Bool.not_true, Bool.false_eq_true, if_false]
    by_cases hr : s.role = some "manager".data
    · simp [hr]
    · simp [hr, bne_iff_ne, hr]

/-- Witness for C4 amended: missing account, deactivated account, and an
active `front_desk` account with a stale `manager` session claim. -/
theorem C4_gate_revalidation_witness :
    (login_required (mkDB [] []) ⟨some 2, some "bob".data, none⟩
        "overview".data = (.redirectLogin, Session.cleared) ∧
      manager_required (mkDB [] []) ⟨some 2, some "bob".data, none⟩ =
        (.redirectLogin, Session.cleared)) ∧
    (login_required (mkDB [{ staffUser with is_active := false }] [])
        ⟨some 2, some "bob".data, none⟩ "overview".data =
        (.redirectLogin, Session.cleared) ∧
      manager_required (mkDB [{ staffUser with is_active := false }] [])
        ⟨some 2, some "bob".data, none⟩ = (.redirectLogin, Session.cleared)) ∧
    ((manager_required (mkDB [staffUser] [])
        ⟨some 2, some "bob".data, some "manager".data⟩).1 = .forbidden403 ↔
      (some "manager".data : Option Str) ≠ some "manager".data) := by
  refine ⟨?_, ?_, ?_⟩
  · exact (C4_gate_revalidation (mkDB [] []) ⟨some 2, some "bob".data, none⟩
      "overview".data 2 rfl).1 (by decide)
  · exact (C4_gate_revalidation (mkDB [{ staffUser with is_active := false }]
      []) ⟨some 2, some "bob".data, none⟩ "overview".data 2 rfl).2.1
      { staffUser with is_active := false } (by decide) (by decide)
  · exact (C4_gate_revalidation (mkDB [staffUser] [])
      ⟨some 2, some "bob".data, some "manager".data⟩ "overview".data 2
      rfl).2.2 staffUser (by decide) (by decide)

/- ------------------------------------------------------------------ -/
/- C6: lockout message versus bad-credential message.                 -/
/- ------------------------------------------------------------------ -/

/-- C6 counterexample: a login while locked out renders `Account is
temporarily locked. Please try again later.`, while bad credentials render
`Invalid username or password` — the two failures are observably distinct. -/
theorem C6_counterexample :
    login fixCheckpw 10
        { mkDB [mgrUser] [] with
          login_attempts := [⟨"boss".data, 5, some 20, 5⟩] }
        Session.cleared "boss".data "mpw".data =
      (.errorPage
          "Account is temporarily locked. Please try again later.".data,
        { mkDB [mgrUser] [] with
          login_attempts := [⟨"boss".data, 5, some 20, 5⟩] },
        Session.cleared) ∧
    (login fixCheckpw 10 (mkDB [mgrUser] []) Session.cleared "boss".data
        "bad".data).1 = .errorPage "Invalid username or password".data ∧
    ("Account is temporarily locked. Please try again later.".data : Str) ≠
      "Invalid username or password".data := by
  refine ⟨by decide, by decide, by decide⟩

/-- C6 amended: a login attempt while the username is locked out renders the
page with `Account is temporarily locked. Please try again later.` and no
other effect, while a failed credential check renders `Invalid username or
password` — two distinct messages, so the lockout IS observable to the
caller of `POST /login`. -/
theorem C6_distinct_failure_messages (checkpw : Str → Str → Bool) (now : Nat)
    (db : DB) (s : Session) (uname pw : Str) (hs : s.user_id = none) :
    (is_account_locked now db uname = (true, db) →
      login checkpw now db s uname pw =
        (.errorPage
          "Account is temporarily locked. Please try again later.".data,
          db, s)) ∧
    (∀ db₁, is_account_locked now db uname = (false, db₁) →
      verify_user_credentials checkpw db₁ uname pw = none →
      login checkpw now db s uname pw =
        (.errorPage "Invalid username or password".data,
          record_failed_login now db₁ uname, s)) ∧
    ("Account is temporarily locked. Please try again later.".data : Str) ≠
      "Invalid username or password".data := by
  refine ⟨?_, ?_, by decide⟩
  · intro hlock
    simp only [login, hs, Option.isSome_none, Bool.false_eq_true, if_false,
      hlock]
  · intro db₁ hunlock hv
    simp only [login, hs, Option.isSome_none, Bool.false_eq_true, if_false,
      hunlock, hv]

/-- Witness for C6 amended at the concrete locked and unlocked databases. -/
theorem C6_distinct_failure_messages_witness :
    login fixCheckpw 10
        { mkDB [mgrUser] [] with
          login_attempts := [⟨"boss".data, 5, some 20, 5⟩] }
        Session.cleared "boss".data "mpw".data =
      (.errorPage
          "Account is temporarily locked. Please try again later.".data,
        { mkDB [mgrUser] [] with
          login_attempts := [⟨"boss".data, 5, some 20, 5⟩] },
        Session.cleared) ∧
    login fixCheckpw 10 (mkDB [mgrUser] []) Session.cleared "boss".data
        "bad".data =
      (.errorPage "Invalid username or password".data,
        record_failed_login 10 (mkDB [mgrUser] []) "boss".data,
        Session.cleared) := by
  have T := C6_distinct_failure_messages fixCheckpw 10
    { mkDB [mgrUser] [] with
      login_attempts := [⟨"boss".data, 5, some 20, 5⟩] }
    Session.cleared "boss".data "mpw".data rfl
  have U := C6_distinct_failure_messages fixCheckpw 10 (mkDB [mgrUser] [])
    Session.cleared "boss".data "bad".data rfl
  exact ⟨T.1 (by decide), U.2.1 (mkDB [mgrUser] []) (by decide) (by decide)⟩

/- ------------------------------------------------------------------ -/
/- C5: lockout threshold and counter reset.                           -/
/- ------------------------------------------------------------------ -/

/-- One failed login against a username with no `login_attempts` row yet:
the row is created with count 1 and no lock. -/
theorem login_fail_first (checkpw : Str → Str → Bool) (now : Nat) (db : DB)
    (s : Session) (uname badpw : Str) (u : User)
    (hs : s.user_id = none)
    (hu : db.users.find? (fun x => x.username == uname) = some u)
    (hact : u.is_active = true)
    (hbad : checkpw badpw u.password_hash = false)
    (hemp : db.login_attempts = []) :
    login checkpw now db s uname badpw =
      (.errorPage "Invalid username or password".data,
        { db with login_attempts := [⟨uname, 1, none, now⟩] }, s) := by
  simp [login, is_account_locked, verify_user_credentials,
    record_failed_login, upsertLoginAttempt, MAX_LOGIN_ATTEMPTS, hs, hu,
    hact, hbad, hemp]

/-- One failed login against a username whose (unlocked) row shows `k` prior
failures: the count becomes `k + 1` and the lock is set exactly when that
reaches `MAX_LOGIN_ATTEMPTS`. -/
theorem login_fail_step (checkpw : Str → Str → Bool) (now : Nat) (db : DB)
    (s : Session) (uname badpw : Str) (u : User) (k lastn : Nat)
    (hs : s.user_id = none)
    (hu : db.users.find? (fun x => x.username == uname) = some u)
    (hact : u.is_active = true)
    (hbad : checkpw badpw u.password_hash = false)
    (hatts : db.login_attempts = [⟨uname, k, none, lastn⟩]) :
    login checkpw now db s uname badpw =
      (.errorPage "Invalid username or password".data,
        { db with
          login_attempts := [⟨uname, k + 1,
            if MAX_LOGIN_ATTEMPTS ≤ k + 1 then
              some (now + LOCKOUT_DURATION_MINUTES)
            else none, now⟩] }, s) := by
  simp [login, is_account_locked, verify_user_credentials,
    record_failed_login, upsertLoginAttempt, hs, hu, hact, hbad, hatts]

/-- C5: for a username with a fresh lockout row, five consecutive failed
logins leave `attempt_count = 4` with no lock after the fourth and set
`locked_until = n5 + 15` on the fifth; a sixth attempt with CORRECT
credentials inside the lock window is rejected with the lockout message and
changes nothing; and a correct login after the lock has expired succeeds,
re-populates the session, and leaves the attempt counter at zero. -/
theorem C5_lockout_threshold (checkpw : Str → Str → Bool) (db : DB)
    (s : Session) (uname badpw goodpw : Str) (u : User)
    (n1 n2 n3 n4 n5 n6 n7 : Nat)
    (hs : s.user_id = none)
    (hu : db.users.find? (fun x => x.username == uname) = some u)
    (hact : u.is_active = true)
    (hfpc : u.force_password_change = false)
    (hbad : checkpw badpw u.password_hash = false)
    (hgood : checkpw goodpw u.password_hash = true)
    (hemp : db.login_attempts = [])
    (hn6 : n6 < n5 + LOCKOUT_DURATION_MINUTES)
    (hn7 : n5 + LOCKOUT_DURATION_MINUTES ≤ n7) :
    (loginChain checkpw s uname badpw db [n1, n2, n3, n4]).login_attempts =
      [⟨uname, 4, none, n4⟩] ∧
    (loginChain checkpw s uname badpw db [n1, n2, n3, n4, n5]).login_attempts
      = [⟨uname, 5, some (n5 + LOCKOUT_DURATION_MINUTES), n5⟩] ∧
    login checkpw n6 (loginChain checkpw s uname badpw db [n1, n2, n3, n4, n5])
        s uname goodpw =
      (.errorPage
          "Account is temporarily locked. Please try again later.".data,
        loginChain checkpw s uname badpw db [n1, n2, n3, n4, n5], s) ∧
    (login checkpw n7
        (loginChain checkpw s uname badpw db [n1, n2, n3, n4, n5]) s uname
        goodpw).1 = .redirectNext ∧
    (login checkpw n7
        (loginChain checkpw s uname badpw db [n1, n2, n3, n4, n5]) s uname
        goodpw).2.2 = ⟨some u.id, some u.username, some u.role⟩ ∧
    (login checkpw n7
        (loginChain checkpw s uname badpw db [n1, n2, n3, n4, n5]) s uname
        goodpw).2.1.login_attempts = [⟨uname, 0, none, n5⟩] := by
  have h1 := login_fail_first checkpw n1 db s uname badpw u hs hu hact hbad
    hemp
  have h2 : login checkpw n2 { db with login_attempts :=
      [⟨uname, 1, none, n1⟩] } s uname badpw =
      (.errorPage "Invalid username or password".data,
        { db with login_attempts := [⟨uname, 2, none, n2⟩] }, s) := by
    simpa [MAX_LOGIN_ATTEMPTS] using
      login_fail_step checkpw n2
        { db with login_attempts := [⟨uname, 1, none, n1⟩] }
        s uname badpw u 1 n1 hs hu hact hbad rfl
  have h3 : login checkpw n3 { db with login_attempts :=
      [⟨uname, 2, none, n2⟩] } s uname badpw =
      (.errorPage "Invalid username or password".data,
        { db with login_attempts := [⟨uname, 3, none, n3⟩] }, s) := by
    simpa [MAX_LOGIN_ATTEMPTS] using
      login_fail_step checkpw n3
        { db with login_attempts := [⟨uname, 2, none, n2⟩] }
        s uname badpw u 2 n2 hs hu hact hbad rfl
  have h4 : login checkpw n4 { db with login_attempts :=
      [⟨uname, 3, none, n3⟩] } s uname badpw =
      (.errorPage "Invalid username or password".data,
        { db with login_attempts := [⟨uname, 4, none, n4⟩] }, s) := by
    simpa [MAX_LOGIN_ATTEMPTS] using
      login_fail_step checkpw n4
        { db with login_attempts := [⟨uname, 3, none, n3⟩] }
        s uname badpw u 3 n3 hs hu hact hbad rfl
  have h5 : login checkpw n5 { db with login_attempts :=
      [⟨uname, 4, none, n4⟩] } s uname badpw =
      (.errorPage "Invalid username or password".data,
        { db with login_attempts :=
          [⟨uname, 5, some (n5 + LOCKOUT_DURATION_MINUTES), n5⟩] }, s) := by
    simpa [MAX_LOGIN_ATTEMPTS] using
      login_fail_step checkpw n5
        { db with login_attempts := [⟨uname, 4, none, n4⟩] }
        s uname badpw u 4 n4 hs hu hact hbad rfl
  have e4 : loginChain checkpw s uname badpw db [n1, n2, n3, n4] =
      { db with login_attempts := [⟨uname, 4, none, n4⟩] } := by
    simp only [loginChain, h1, h2, h3, h4]
  have e5 : loginChain checkpw s uname badpw db [n1, n2, n3, n4, n5] =
      { db with login_attempts :=
        [⟨uname, 5, some (n5 + LOCKOUT_DURATION_MINUTES), n5⟩] } := by
    simp only [loginChain, h1, h2, h3, h4, h5]
  have hlock : login checkpw n6 { db with login_attempts :=
      [⟨uname, 5, some (n5 + LOCKOUT_DURATION_MINUTES), n5⟩] } s uname goodpw
      = (.errorPage
          "Account is temporarily locked. Please try again later.".data,
        { db with login_attempts :=
          [⟨uname, 5, some (n5 + LOCKOUT_DURATION_MINUTES), n5⟩] }, s) := by
    simp [login, is_account_locked, hs, hn6]
  have hn7' : ¬ n7 < n5 + LOCKOUT_DURATION_MINUTES := Nat.not_lt.mpr hn7
  have hok : login checkpw n7 { db with login_attempts :=
      [⟨uname, 5, some (n5 + LOCKOUT_DURATION_MINUTES), n5⟩] } s uname goodpw
      = (.redirectNext,
        { db with
          users := db.users.map (fun v =>
            if v.id == u.id then { v with last_login := some n7 } else v),
          login_attempts := [⟨uname, 0, none, n5⟩] },
        ⟨some u.id, some u.username, some u.role⟩) := by
    simp [login, is_account_locked, verify_user_credentials,
      reset_login_attempts, hs, hu, hact, hgood, hfpc, hn7']
  refine ⟨?_, ?_, ?_, ?_, ?_, ?_⟩
  · rw [e4]
  · rw [e5]
  · rw [e5, hlock]
  · rw [e5, hok]
  · rw [e5, hok]
  · rw [e5, hok]

/-- Witness for C5: the manager account, five failed attempts at minutes
1-5, a correct-password attempt at minute 10 rejected as locked, and a
correct login at minute 20 that resets the counter. -/
theorem C5_lockout_threshold_witness :
    (loginChain fixCheckpw Session.cleared "boss".data "x".data
        (mkDB [mgrUser] []) [1, 2, 3, 4]).login_attempts =
      [⟨"boss".data, 4, none, 4⟩] ∧
    (loginChain fixCheckpw Session.cleared "boss".data "x".data
        (mkDB [mgrUser] []) [1, 2, 3, 4, 5]).login_attempts =
      [⟨"boss".data, 5, some 20, 5⟩] ∧
    login fixCheckpw 10 (loginChain fixCheckpw Session.cleared "boss".data
        "x".data (mkDB [mgrUser] []) [1, 2, 3, 4, 5]) Session.cleared
        "boss".data "mpw".data =
      (.errorPage
          "Account is temporarily locked. Please try again later.".data,
        loginChain fixCheckpw Session.cleared "boss".data "x".data
          (mkDB [mgrUser] []) [1, 2, 3, 4, 5], Session.cleared) ∧
    (login fixCheckpw 20 (loginChain fixCheckpw Session.cleared "boss".data
        "x".data (mkDB [mgrUser] []) [1, 2, 3, 4, 5]) Session.cleared
        "boss".data "mpw".data).1 = .redirectNext ∧
    (login fixCheckpw 20 (loginChain fixCheckpw Session.cleared "boss".data
        "x".data (mkDB [mgrUser] []) [1, 2, 3, 4, 5]) Session.cleared
        "boss".data "mpw".data).2.2 =
      ⟨some 1, some "boss".data, some "manager".data⟩ ∧
    (login fixCheckpw 20 (loginChain fixCheckpw Session.cleared "boss".data
        "x".data (mkDB [mgrUser] []) [1, 2, 3, 4, 5]) Session.cleared
        "boss".data "mpw".data).2.1.login_attempts =
      [⟨"boss".data, 0, none, 5⟩] :=
  C5_lockout_threshold fixCheckpw (mkDB [mgrUser] []) Session.cleared
    "boss".data "x".data "mpw".data mgrUser 1 2 3 4 5 10 20 rfl (by decide)
    (by decide) (by decide) (by decide) (by decide) rfl (by decide)
    (by decide)
